import Mathlib

/-!
Verification development for the Madad location-aware directory client
(source: src/src/App.jsx). The client keeps a session (token, user,
auth gate), a geographic position, a category filter, and a displayed
vendor collection, all synchronized with a remote API and a persisted
key/value store (localStorage keys madad_token / madad_user /
madad_theme).

The embedding below translates the component's state and its event
handlers / effects into pure Lean functions. Asynchronous completions
(HTTP responses) are modelled as explicit response values applied to the
state current at arrival time, exactly as the JavaScript closures do.
JavaScript string truthiness (`if (t)`) is modelled explicitly, and
serialized user records are modelled by a sum of a well-formed record
(on which JSON parsing succeeds and round-trips) and a corrupt raw
string (on which JSON.parse throws). Coordinates are exact rationals,
written as explicit numerator/denominator literals so that proofs can
evaluate them; lemmas tie them to the source's decimal literals.
-/

namespace Madad

/-- A user profile record as returned by the auth API. -/
structure User where
  id : String
  name : Option String := none
  phone : Option String := none
  email : Option String := none
deriving Repr, DecidableEq

/-- The persisted serialized user entry: either the JSON serialization of a
well-formed user record (JSON.parse succeeds and yields it back) or a
corrupt raw string that is not valid JSON (JSON.parse throws on it). -/
inductive StoredUser where
  | valid (u : User)
  | corrupt (raw : String)
deriving Repr, DecidableEq

/-- A vendor record from the directory API response. Coordinates are kept as
rationals; the source stores them as `location.coordinates = [lon, lat]`. -/
structure Vendor where
  id : String
  name : String
  service_type : String
  lon : Rat := 0
  lat : Rat := 0
  address : Option String := none
  phone : Option String := none
deriving Repr, DecidableEq

/-- The persisted store: the three independent string-keyed entries the source
reads and writes (madad_token, madad_user, madad_theme). -/
structure Store where
  madad_token : Option String := none
  madad_user : Option StoredUser := none
  madad_theme : Option String := none
deriving Repr, DecidableEq

/-- The App component's state: the useState hooks of App in src/src/App.jsx,
plus the persisted store. Defaults are the useState initial values. -/
structure AppState where
  position : Option (Rat × Rat) := none
  vendors : List Vendor := []
  serviceType : String := ""
  loading : Bool := false
  error : String := ""
  token : Option String := none
  user : Option User := none
  showAuthGate : Bool := true
  store : Store := {}
deriving Repr, DecidableEq

/-- The state at first render: every useState initial value. -/
def initialState : AppState := {}

/-- JavaScript truthiness of an optional string (`if (t)`): absent and the
empty string are falsy. -/
def tokenTruthy : Option String → Bool
  | none => false
  | some t => t ≠ ""

/-- Truthiness of the raw persisted user string: serializing a record yields a
nonempty object literal, so only an empty corrupt blob is falsy. -/
def storedTruthy : Option StoredUser → Bool
  | none => false
  | some (.valid _) => true
  | some (.corrupt raw) => raw ≠ ""

/-- JSON.parse on the persisted user entry: succeeds exactly on well-formed
serializations, throws (modelled as none) on corrupt data. -/
def jsonParseUser : StoredUser → Option User
  | .valid u => some u
  | .corrupt _ => none

/-- Session status as observed through the component's state: a token together
with a user renders as signed-in (Authenticated); otherwise the auth gate
decides between Guest browsing and the Unauthenticated login gate. The
source has no distinct observable Verifying state. -/
inductive SessionStatus where
  | unauthenticated
  | guest
  | authenticated
  | verifying
deriving Repr, DecidableEq

/-- Derive the session status from the component state. -/
def sessionStatus (s : AppState) : SessionStatus :=
  if s.token.isSome && s.user.isSome then .authenticated
  else if !s.showAuthGate then .guest
  else .unauthenticated

/-- Whether the in-memory session and the persisted store agree on session
existence. -/
def sessionAgrees (s : AppState) : Bool :=
  s.token.isSome == s.store.madad_token.isSome

/-- The restore effect (App.jsx lines 195-202): read madad_token and
madad_user; a truthy token is installed; a truthy user entry is fed to
JSON.parse, whose result is installed; finally the gate is hidden iff a
token was found. JSON.parse throwing on corrupt data aborts the effect:
the result is an error and the remaining statements (setShowAuthGate)
never run. -/
def restore (s : AppState) : Except String AppState :=
  let t := s.store.madad_token
  let u := s.store.madad_user
  let s1 := if tokenTruthy t then { s with token := t } else s
  if storedTruthy u then
    match u with
    | some su =>
      match jsonParseUser su with
      | some usr => .ok { s1 with user := some usr, showAuthGate := !(tokenTruthy t) }
      | none => .error "JSON parse error"
    | none => .ok { s1 with showAuthGate := !(tokenTruthy t) }
  else .ok { s1 with showAuthGate := !(tokenTruthy t) }

/-- Whether an Except completed normally. -/
def exceptIsOk : Except String AppState → Bool
  | .ok _ => true
  | .error _ => false

/-- HTTP res.ok: status in the 2xx range. -/
def resOk (status : Nat) : Bool := 200 ≤ status && status < 300

/-- Outcome of the who-am-I verification call: an HTTP response with some
status, or a rejected fetch (network error, timeout). The verify effect
never reads the response body, so bodies are not modelled here. -/
inductive VerifyResponse where
  | response (status : Nat)
  | networkError
deriving Repr, DecidableEq

/-- Any failure mode of the verification call: rejected transport or a
non-2xx status (401, 500, ...). -/
def verifyFailed : VerifyResponse → Bool
  | .networkError => true
  | .response st => !resOk st

/-- The logout operation (App.jsx lines 273-279): remove both persisted
session entries, clear token and user, show the gate. The catch block of
the verify effect (lines 211-217) performs exactly the same five steps. -/
def logoutFn (s : AppState) : AppState :=
  { s with token := none, user := none, showAuthGate := true,
           store := { s.store with madad_token := none, madad_user := none } }

/-- The verify effect (App.jsx lines 205-220) applied to a response: with a
falsy token it returns immediately; otherwise a failing call forces a
logout and a 2xx response leaves the state untouched. -/
def verify (s : AppState) (resp : VerifyResponse) : AppState :=
  if tokenTruthy s.token then
    if verifyFailed resp then logoutFn s else s
  else s

/-- 24.8607 as an exact rational. -/
def karachiLat : Rat := ⟨248607, 10000, by decide, by decide⟩

/-- 67.0011 as an exact rational. -/
def karachiLng : Rat := ⟨670011, 10000, by decide, by decide⟩

/-- The Karachi fallback coordinate [24.8607, 67.0011] (App.jsx line 261). -/
def karachiDefault : Rat × Rat := (karachiLat, karachiLng)

/-- The fallback constant equals the source's decimal literals. -/
theorem karachiDefault_eq_decimal : karachiDefault = (24.8607, 67.0011) := by
  unfold karachiDefault karachiLat karachiLng
  norm_num [Rat.mk'_eq_divInt, Rat.divInt_eq_div]

/-- The map center: the acquired position, or the fallback default when no
position has been acquired. -/
def center (s : AppState) : Rat × Rat := s.position.getD karachiDefault

/-- The query built by fetchNearby: lat, lng, radius_km=5 and, when the
category filter is truthy (nonempty), service_type. -/
structure QueryRequest where
  lat : Rat
  lng : Rat
  radius_km : Nat
  service_type : Option String
deriving Repr, DecidableEq

/-- The request issued by a call to fetchNearby (App.jsx lines 234-245): none
when position is absent (the function returns without any network call);
otherwise the query parameters built from the current position and
category filter. -/
def fetchNearbyRequest (s : AppState) : Option QueryRequest :=
  match s.position with
  | none => none
  | some p =>
      some { lat := p.1, lng := p.2, radius_km := 5,
             service_type := if s.serviceType = "" then none else some s.serviceType }

/-- The synchronous prefix of a fetchNearby call: when position is present it
sets loading and clears the error banner before awaiting the response. -/
def fetchNearbyIssueState (s : AppState) : AppState :=
  match s.position with
  | none => s
  | some _ => { s with loading := true, error := "" }

/-- Outcome of a vendor fetch as seen by the awaiting closure: an HTTP
response carrying a status and a body, or a rejected transport. The body
is none when res.json() throws (malformed), otherwise the optional
vendors field (none models a missing or null field). -/
inductive FetchOutcome where
  | response (status : Nat) (body : Option (Option (List Vendor)))
  | networkError
deriving Repr, DecidableEq

/-- A transport error or non-success response of a vendor fetch. -/
def fetchFailed : FetchOutcome → Bool
  | .networkError => true
  | .response st _ => !resOk st

/-- The completion of a fetchNearby call (App.jsx lines 245-253) applied to
the state current at arrival: a 2xx response with a parsed body replaces
the vendor collection with `data.vendors || []` unconditionally (the
source keeps no issuance sequence number, so nothing guards against a
stale response); every failure sets the error banner and leaves the
vendors untouched; finally loading is cleared. -/
def fetchNearbyComplete (s : AppState) (o : FetchOutcome) : AppState :=
  match o with
  | .networkError => { s with error := "Could not load nearby vendors", loading := false }
  | .response st body =>
      if resOk st then
        match body with
        | none => { s with error := "Could not load nearby vendors", loading := false }
        | some vendorsField => { s with vendors := vendorsField.getD [], loading := false }
      else { s with error := "Could not load nearby vendors", loading := false }

/-- Requests issued by the completion handler of fetchNearby: the catch and
finally blocks (App.jsx lines 249-253) contain no fetch call, so no
automatic retry is ever issued. -/
def fetchNearbyCompleteRequests (_ : AppState) (_ : FetchOutcome) : List QueryRequest := []

/-- Modelled from the spec: the remote directory API (spec section 6,
GET /api/vendors/nearby) is not part of src/; per its contract a query
carrying a service_type limits the returned vendors to that category.
Radius/geometry details are irrelevant to the claims and elided. -/
def serverNearby (db : List Vendor) (q : QueryRequest) : List Vendor :=
  db.filter (fun v =>
    match q.service_type with
    | none => true
    | some c => v.service_type = c)

/-- Outcome of a login/register call as seen by handleSubmit: rejected
transport; a non-ok response whose body yields an optional detail string
(none when the body is malformed, since `.catch` substitutes an empty
object); an ok response with a malformed body (res.json() throws); or an
ok response with the contractual success body. -/
inductive AuthResponse where
  | networkError
  | failureResponse (detail : Option String)
  | okMalformed
  | okResponse (access_token : String) (user : User)
deriving Repr, DecidableEq

/-- JavaScript `msg.detail || fallback`: an absent or empty detail falls back
to the generic message. -/
def jsOrElse (d : Option String) (fallback : String) : String :=
  match d with
  | some s => if s = "" then fallback else s
  | none => fallback

/-- Message of a rejected fetch; the exact text is engine-dependent and no
claim relies on it. -/
def networkFailureMessage : String := "Failed to fetch"

/-- Message of a JSON parse failure on a success body; the exact text is
engine-dependent and no claim relies on it. -/
def malformedJsonMessage : String := "Unexpected end of JSON input"

/-- The onAuthed callback handleAuthed (App.jsx lines 263-267): install token
and user, hide the gate. -/
def handleAuthed (s : AppState) (tok : String) (usr : User) : AppState :=
  { s with token := some tok, user := some usr, showAuthGate := false }

/-- The two localStorage.setItem calls of the success path (App.jsx lines
125-126): write the token and the serialized user through to the store. -/
def persistSession (s : AppState) (tok : String) (usr : User) : AppState :=
  { s with store := { s.store with madad_token := some tok,
                                   madad_user := some (StoredUser.valid usr) } }

/-- The completion of AuthScreen.handleSubmit (App.jsx lines 103-133) applied
to the app state, returning the new app state and the form-level error
message. On a non-ok response it throws `msg.detail || generic` and the
catch displays that message, touching no session or persisted state. On
an ok response it writes both persisted entries and calls onAuthed; the
writes and the state updates form one synchronous block with no await
between them, hence a single transition. -/
def handleSubmitComplete (s : AppState) (resp : AuthResponse) : AppState × String :=
  match resp with
  | .networkError => (s, networkFailureMessage)
  | .failureResponse detail => (s, jsOrElse detail "Authentication failed")
  | .okMalformed => (s, malformedJsonMessage)
  | .okResponse tok usr => (handleAuthed (persistSession s tok usr) tok usr, "")

/-- The Continue-as-Guest handler handleGuest (App.jsx lines 269-271): hide
the gate and nothing else. -/
def handleGuest (s : AppState) : AppState :=
  { s with showAuthGate := false }

/-- Render-loop events relevant to the reactive fetch effect (App.jsx lines
256-259, deps [position, serviceType]): the mount render, a position
update, a category-filter update, or any other re-render. -/
inductive AppEvent where
  | mount
  | positionChanged (p : Rat × Rat)
  | categoryChanged (c : String)
  | otherRender
deriving Repr, DecidableEq

/-- State update performed by an event before effects run. -/
def applyEvent (s : AppState) : AppEvent → AppState
  | .positionChanged p => { s with position := some p }
  | .categoryChanged c => { s with serviceType := c }
  | .mount => s
  | .otherRender => s

/-- Whether the reactive effect runs after an event: useEffect with deps
[position, serviceType] runs on mount and whenever position or the
category filter changed, and not on unrelated re-renders. -/
def reactiveFetchRuns : AppEvent → Bool
  | .mount => true
  | .positionChanged _ => true
  | .categoryChanged _ => true
  | .otherRender => false

/-- The request issued by the reactive effect after an event: when the effect
runs it calls fetchNearby on the updated state, which issues nothing
while position is absent. -/
def reactiveFetchRequest (s : AppState) (e : AppEvent) : Option QueryRequest :=
  if reactiveFetchRuns e then fetchNearbyRequest (applyEvent s e) else none

/-! Concrete example values used in counterexamples and witnesses. -/

/-- 24.9 as an exact rational, an example acquired latitude. -/
def exLat : Rat := ⟨249, 10, by decide, by decide⟩

/-- 67.1 as an exact rational, an example acquired longitude. -/
def exLng : Rat := ⟨671, 10, by decide, by decide⟩

/-- Example user. -/
def exUser : User := { id := "u1", name := some "Ali" }

/-- Example vendor returned by an earlier-issued fetch. -/
def vendorA : Vendor := { id := "a1", name := "Alpha Tow", service_type := "tow_truck" }

/-- Example vendor returned by a later-issued fetch. -/
def vendorB : Vendor := { id := "b1", name := "Beta Medical", service_type := "medical" }

/-- Example signed-in state with an acquired position. -/
def exState : AppState :=
  { position := some (exLat, exLng), vendors := [vendorA], serviceType := "",
    token := some "tok123", user := some exUser, showAuthGate := false,
    store := { madad_token := some "tok123", madad_user := some (.valid exUser) } }

/-- Example state with no acquired position and the medical filter active. -/
def exStateNoPos : AppState :=
  { exState with position := none, serviceType := "medical" }

/-- Trace for the stale-fetch scenario: fetch A issued from this state. -/
def c1Start : AppState := { position := some (exLat, exLng), showAuthGate := false }

/-- After issuing fetch A (triggered by the position change). -/
def c1AfterIssueA : AppState := fetchNearbyIssueState c1Start

/-- After the category changes and fetch B is issued while A is in flight. -/
def c1AfterIssueB : AppState :=
  fetchNearbyIssueState { c1AfterIssueA with serviceType := "medical" }

/-- After B's response arrives first and is applied. -/
def c1AfterBApplied : AppState :=
  fetchNearbyComplete c1AfterIssueB (.response 200 (some (some [vendorB])))

/-- After A's late response arrives and is applied on top of B's. -/
def c1AfterAApplied : AppState :=
  fetchNearbyComplete c1AfterBApplied (.response 200 (some (some [vendorA])))

/-- State whose persisted user entry is corrupt (not valid JSON). -/
def sCorruptUser : AppState :=
  { store := { madad_token := some "tok123", madad_user := some (.corrupt "not-json") } }

/-- The same state with the user entry absent instead of corrupt. -/
def sAbsentUser : AppState :=
  { store := { madad_token := some "tok123", madad_user := none } }

/-! Claims -/

/-- Claim C1, counterexample: the source applies every arriving response
unconditionally, so with fetch A issued before fetch B, after B's result
[vendorB] is applied, A's late-arriving result overwrites it and the
displayed collection ends as [vendorA] — the collection IS overwritten by
the result of a fetch issued earlier than the one whose result it showed,
refuting last-issued-wins. -/
theorem c1_stale_overwrite_counterexample :
    c1AfterBApplied.vendors = [vendorB] ∧
    c1AfterAApplied.vendors = [vendorA] ∧
    vendorA ≠ vendorB := by decide

/-- Claim C1, amended: the code implements last-completed-wins, not
last-issued-wins — every successful response replaces the displayed
vendor collection with its own vendor list on arrival, with no
issuance-order guard, so a late response from an earlier-issued fetch
overwrites a later-issued fetch's already-applied result. -/
theorem c1_last_completed_wins (s : AppState) (st : Nat) (vs : List Vendor)
    (h : resOk st = true) :
    (fetchNearbyComplete s (.response st (some (some vs)))).vendors = vs := by
  simp [fetchNearbyComplete, h]

/-- Witness for c1_last_completed_wins at a concrete input. -/
theorem c1_last_completed_wins_witness :
    (fetchNearbyComplete c1AfterBApplied
      (.response 200 (some (some [vendorA])))).vendors = [vendorA] :=
  c1_last_completed_wins c1AfterBApplied 200 [vendorA] (by decide)

/-- Claim C2, counterexample: with position absent and the medical filter
set, a manual fetchNearby call issues no query at all — the fallback
default coordinate is not used as the position parameter, because the
function returns before building any request. -/
theorem c2_no_query_when_position_absent :
    exStateNoPos.position = none ∧
    exStateNoPos.serviceType = "medical" ∧
    fetchNearbyRequest exStateNoPos = none := by decide

/-- Claim C2, amended: when position is absent, refreshVendors executes no
query (the fallback default coordinate (24.8607, 67.0011) serves only as
the map center, never as a query parameter); when position is present and
the category filter is "medical", the query carries
service_type=medical, which per the directory API contract restricts
results to vendors of that service category. -/
theorem c2_amended_refresh_and_filter (s1 s2 : AppState) (p : Rat × Rat)
    (db : List Vendor) (q : QueryRequest)
    (h1 : s1.position = none)
    (h2 : s2.position = some p) (h3 : s2.serviceType = "medical")
    (h4 : q.service_type = some "medical") :
    fetchNearbyRequest s1 = none ∧
    center s1 = karachiDefault ∧
    fetchNearbyRequest s2 =
      some { lat := p.1, lng := p.2, radius_km := 5, service_type := some "medical" } ∧
    ∀ v ∈ serverNearby db q, v.service_type = "medical" := by
  refine ⟨?_, ?_, ?_, ?_⟩
  · simp [fetchNearbyRequest, h1]
  · simp [center, h1]
  · simp [fetchNearbyRequest, h2, h3]
  · intro v hv
    simp only [serverNearby, h4, List.mem_filter] at hv
    simpa using hv.2

/-- Witness for c2_amended_refresh_and_filter at concrete inputs. -/
theorem c2_amended_refresh_and_filter_witness :
    fetchNearbyRequest exStateNoPos = none ∧
    center exStateNoPos = karachiDefault ∧
    fetchNearbyRequest { exStateNoPos with position := some (exLat, exLng) } =
      some { lat := exLat, lng := exLng, radius_km := 5,
             service_type := some "medical" } ∧
    ∀ v ∈ serverNearby [vendorA, vendorB]
        { lat := exLat, lng := exLng, radius_km := 5,
          service_type := some "medical" },
      v.service_type = "medical" :=
  c2_amended_refresh_and_filter exStateNoPos
    { exStateNoPos with position := some (exLat, exLng) }
    (exLat, exLng) [vendorA, vendorB]
    { lat := exLat, lng := exLng, radius_km := 5, service_type := some "medical" }
    (by decide) (by decide) (by decide) (by decide)

/-- Claim C3, counterexample: restoring with a corrupt persisted user record
does not behave as if the entry were absent — JSON.parse throws and the
restore effect aborts with an error, while the same state with the entry
absent restores normally. -/
theorem c3_corrupt_restore_counterexample :
    exceptIsOk (restore sCorruptUser) = false ∧
    exceptIsOk (restore sAbsentUser) = true := by decide

/-- Claim C3, amended: restoring from a corrupt (non-JSON) persisted user
record raises a parse error and aborts the restore effect instead of
completing with the entry treated as absent. -/
theorem c3_corrupt_restore_raises (s : AppState) (raw : String)
    (h1 : s.store.madad_user = some (.corrupt raw)) (h2 : raw ≠ "") :
    exceptIsOk (restore s) = false := by
  simp [restore, exceptIsOk, h1, storedTruthy, h2, jsonParseUser]

/-- Witness for c3_corrupt_restore_raises at a concrete input. -/
theorem c3_corrupt_restore_raises_witness :
    exceptIsOk (restore sCorruptUser) = false :=
  c3_corrupt_restore_raises sCorruptUser "not-json" (by decide) (by decide)

/-- Claim C4: a verification call that fails in any mode (network error,
timeout, 401, 500; the effect never reads the body, so a malformed body
can only fail via a non-2xx status or transport error) forces a logout:
token absent, user absent, both persisted entries cleared, status
Unauthenticated. A successful call leaves the state untouched (so an
authenticated session stays authenticated), verify always resolves to
one of those two outcomes, and no outcome exhibits a Verifying status. -/
theorem c4_verify_resolves_or_logout (s sf : AppState) (rf rs : VerifyResponse)
    (hf1 : tokenTruthy sf.token = true) (hf2 : verifyFailed rf = true)
    (hs : verifyFailed rs = false) :
    verify sf rf = logoutFn sf ∧
    (verify sf rf).token = none ∧
    (verify sf rf).user = none ∧
    (verify sf rf).store.madad_token = none ∧
    (verify sf rf).store.madad_user = none ∧
    sessionStatus (verify sf rf) = .unauthenticated ∧
    verify s rs = s ∧
    sessionStatus (verify s rs) = sessionStatus s ∧
    (verify s rf = s ∨ verify s rf = logoutFn s) ∧
    (∀ r : VerifyResponse, sessionStatus (verify s r) ≠ .verifying) := by
  have hlog : verify sf rf = logoutFn sf := by
    simp [verify, hf1, hf2]
  have hok : verify s rs = s := by
    by_cases h : tokenTruthy s.token = true
    · simp [verify, h, hs]
    · simp [verify, h]
  have hstat : ∀ s' : AppState, sessionStatus s' ≠ .verifying := by
    intro s'
    unfold sessionStatus
    split
    · simp
    · split <;> simp
  have hdich : verify s rf = s ∨ verify s rf = logoutFn s := by
    by_cases h : tokenTruthy s.token = true
    · by_cases h2 : verifyFailed rf = true
      · right; simp [verify, h, h2]
      · left; simp [verify, h, h2]
    · left; simp [verify, h]
  refine ⟨hlog, ?_, ?_, ?_, ?_, ?_, hok, by rw [hok], hdich, fun r => hstat _⟩
  · rw [hlog]; rfl
  · rw [hlog]; rfl
  · rw [hlog]; rfl
  · rw [hlog]; rfl
  · rw [hlog]; simp [sessionStatus, logoutFn]

/-- Witness for c4_verify_resolves_or_logout at concrete inputs: a signed-in
state, a 401 failure and a 200 success. -/
theorem c4_verify_resolves_or_logout_witness :
    verify exState (.response 401) = logoutFn exState ∧
    verify exState (.response 200) = exState := by
  have h := c4_verify_resolves_or_logout exState exState
    (.response 401) (.response 200) (by decide) (by decide) (by decide)
  exact ⟨h.1, h.2.2.2.2.2.2.1⟩

/-- Claim C5: a failed vendor fetch (transport error or non-success
response) leaves the displayed vendor collection, the session (token,
user), the position and the persisted store unchanged, exposes a
transient error notice, and issues no retry. -/
theorem c5_fetch_failure_preserves (s : AppState) (o : FetchOutcome)
    (h : fetchFailed o = true) :
    (fetchNearbyComplete s o).vendors = s.vendors ∧
    (fetchNearbyComplete s o).error = "Could not load nearby vendors" ∧
    (fetchNearbyComplete s o).error ≠ "" ∧
    (fetchNearbyComplete s o).token = s.token ∧
    (fetchNearbyComplete s o).user = s.user ∧
    (fetchNearbyComplete s o).position = s.position ∧
    (fetchNearbyComplete s o).store = s.store ∧
    fetchNearbyCompleteRequests s o = [] := by
  have hc : fetchNearbyComplete s o =
      { s with error := "Could not load nearby vendors", loading := false } := by
    match o with
    | .networkError => rfl
    | .response st body =>
        have hst : resOk st = false := by
          simpa [fetchFailed] using h
        simp [fetchNearbyComplete, hst]
  rw [hc]
  refine ⟨rfl, rfl, ?_, rfl, rfl, rfl, rfl, rfl⟩
  exact (by decide : ("Could not load nearby vendors" : String) ≠ "")

/-- Witness for c5_fetch_failure_preserves at a concrete input: a 500
response arriving in the example signed-in state. -/
theorem c5_fetch_failure_preserves_witness :
    (fetchNearbyComplete exState (.response 500 none)).vendors = [vendorA] ∧
    (fetchNearbyComplete exState (.response 500 none)).token = some "tok123" := by
  have h := c5_fetch_failure_preserves exState (.response 500 none) (by decide)
  exact ⟨h.1, h.2.2.2.1⟩

/-- Claim C6: a failed login or register call leaves the whole app state —
token, user, derived status and persisted store — unchanged, and surfaces
an error whose message is the server body's detail field when that is a
nonempty string, and the generic failure message when the body is
malformed (no detail available). -/
theorem c6_auth_failure_frame (s : AppState) (detail : Option String) (d : String)
    (h1 : detail = some d) (h2 : d ≠ "") :
    (handleSubmitComplete s (.failureResponse detail)).1 = s ∧
    (handleSubmitComplete s (.failureResponse detail)).2 = d ∧
    (handleSubmitComplete s (.failureResponse none)).1 = s ∧
    (handleSubmitComplete s (.failureResponse none)).2 = "Authentication failed" := by
  subst h1
  refine ⟨rfl, ?_, rfl, rfl⟩
  simp [handleSubmitComplete, jsOrElse, h2]

/-- Witness for c6_auth_failure_frame at a concrete input. -/
theorem c6_auth_failure_frame_witness :
    (handleSubmitComplete exState (.failureResponse (some "Invalid credentials"))).1
      = exState ∧
    (handleSubmitComplete exState (.failureResponse (some "Invalid credentials"))).2
      = "Invalid credentials" := by
  have h := c6_auth_failure_frame exState (some "Invalid credentials")
    "Invalid credentials" rfl (by decide)
  exact ⟨h.1, h.2.1⟩

/-- Claim C7: a successful login or register call atomically (the persisted
writes and the state updates form one synchronous block, modelled as a
single transition) sets token, user and status Authenticated, writes both
the token and the serialized user through to the persisted store, and
leaves the in-memory session and the persisted store agreeing that a
session exists. -/
theorem c7_auth_success_persists (s : AppState) (tok : String) (usr : User) :
    (handleSubmitComplete s (.okResponse tok usr)).1.token = some tok ∧
    (handleSubmitComplete s (.okResponse tok usr)).1.user = some usr ∧
    sessionStatus (handleSubmitComplete s (.okResponse tok usr)).1 = .authenticated ∧
    (handleSubmitComplete s (.okResponse tok usr)).1.store.madad_token = some tok ∧
    (handleSubmitComplete s (.okResponse tok usr)).1.store.madad_user
      = some (.valid usr) ∧
    sessionAgrees (handleSubmitComplete s (.okResponse tok usr)).1 = true := by
  refine ⟨rfl, rfl, ?_, rfl, rfl, ?_⟩
  · simp [handleSubmitComplete, handleAuthed, persistSession, sessionStatus]
  · simp [handleSubmitComplete, handleAuthed, persistSession, sessionAgrees]

/-- Claim C8: the reactive effect runs exactly on mount and on position or
category changes; it issues no request when the updated position is
absent (in particular not at mount, where position is still its initial
absent value); and any request it does issue takes its coordinates from
the concrete position, never from the fallback default. -/
theorem c8_reactive_gating (s sNo : AppState) (e eNo : AppEvent)
    (p : Rat × Rat) (c : String) (q : QueryRequest)
    (hNo : (applyEvent sNo eNo).position = none)
    (hq : reactiveFetchRequest s e = some q) :
    reactiveFetchRuns (.positionChanged p) = true ∧
    reactiveFetchRuns (.categoryChanged c) = true ∧
    reactiveFetchRuns .otherRender = false ∧
    reactiveFetchRequest sNo eNo = none ∧
    (applyEvent s e).position = some (q.lat, q.lng) ∧
    reactiveFetchRequest initialState .mount = none := by
  refine ⟨rfl, rfl, rfl, ?_, ?_, rfl⟩
  · unfold reactiveFetchRequest
    split
    · simp [fetchNearbyRequest, hNo]
    · rfl
  · unfold reactiveFetchRequest at hq
    split at hq
    · unfold fetchNearbyRequest at hq
      split at hq
      · exact absurd hq (by simp)
      · rename_i p' hp
        rw [hp]
        injection hq with hq2
        rw [← hq2]
    · exact absurd hq (by simp)

/-- Witness for c8_reactive_gating at concrete inputs: a category change on a
position-less state issues nothing; a position change on the example
state issues a request at exactly the new coordinates. -/
theorem c8_reactive_gating_witness :
    reactiveFetchRequest exStateNoPos (.categoryChanged "medical") = none ∧
    (applyEvent exState (.positionChanged (exLat, exLng))).position
      = some (exLat, exLng) := by
  have h := c8_reactive_gating exState exStateNoPos
    (.positionChanged (exLat, exLng)) (.categoryChanged "medical")
    (exLat, exLng) "medical"
    { lat := exLat, lng := exLng, radius_km := 5, service_type := none }
    (by decide) (by decide)
  exact ⟨h.2.2.2.1, h.2.2.2.2.1⟩

/-- Claim C9: continuing as guest changes only the gating status: token,
user, the persisted store, and for good measure position and vendors are
all exactly as before the call, and the gate is hidden. -/
theorem c9_guest_frame (s : AppState) :
    (handleGuest s).token = s.token ∧
    (handleGuest s).user = s.user ∧
    (handleGuest s).store = s.store ∧
    (handleGuest s).position = s.position ∧
    (handleGuest s).vendors = s.vendors ∧
    (handleGuest s).showAuthGate = false := by
  exact ⟨rfl, rfl, rfl, rfl, rfl, rfl⟩

/-- Claim C10: a successful vendor fetch whose parsed body has no vendors
field (or a null one) replaces the displayed vendor collection with the
empty collection — `data.vendors || []` — rather than leaving it
unchanged or raising an error. -/
theorem c10_missing_vendors_empty (s : AppState) (st : Nat)
    (h : resOk st = true) :
    (fetchNearbyComplete s (.response st (some none))).vendors = [] ∧
    (fetchNearbyComplete s (.response st (some none))).error = s.error := by
  constructor <;> simp [fetchNearbyComplete, h]

/-- Witness for c10_missing_vendors_empty at a concrete input: the example
state displays [vendorA] beforehand and the empty collection afterwards. -/
theorem c10_missing_vendors_empty_witness :
    (fetchNearbyComplete exState (.response 200 (some none))).vendors = [] :=
  (c10_missing_vendors_empty exState 200 (by decide)).1

end Madad
